import Mathlib

/-!
Shallow embedding of the summary-generation / caching workflow of the
Intelligent-Book-management-system repository, together with theorems
settling the specification's claims about it.

The embedding covers:
* `Llama3` — the llama3_service: the `generate_summary` route handler
  (cache lookup, backend adapter `_generate_summary`, refresh/create
  persistence), the `book_summaries` table row and its unique index.
* `ReviewSvc` — the review_service `get_book_reviews_summary` route.
* `BookSvc` — the book_service `create_book` / `update_book` routes and
  their opportunistic summary generation.
* `RecSvc` — the recommendation_service `get_recommendations` fan-out.

Machine conventions: identifiers are `Nat`, timestamps are `Nat` clock
ticks (`datetime.utcnow` is modelled by a `now` parameter), ratings are
`ℚ`, the relational store is a `List` of rows, and every route returns
`Except HTTPError result`.  Network collaborators (Ollama backend, book
service) enter as explicit parameters describing the single response the
code observes.
-/

deriving instance DecidableEq for Except

/-- An HTTP error response: `fastapi.HTTPException(status_code, detail)`. -/
structure HTTPError where
  status_code : Nat
  detail : String
deriving Repr, DecidableEq

namespace Llama3

/-- One row of the `book_summaries` table (llama3_service/models.py,
`BookSummary`): integer id / book_id / user_id, original content, generated
summary, and created/updated timestamps. -/
structure BookSummary where
  id : Nat
  book_id : Nat
  user_id : Nat
  content : String
  summary : String
  created_at : Nat
  updated_at : Nat
deriving Repr, DecidableEq

/-- The `book_summaries` table contents. -/
abbrev Store := List BookSummary

/-- Does the store already hold a row for `(book_id, user_id)`?  This is the
predicate guarded by the unique index `idx_book_summaries_unique` on
`(book_id, user_id)` (llama3_service/models.py, `__table_args__`). -/
def hasPair (db : Store) (book_id user_id : Nat) : Bool :=
  db.any (fun s => s.book_id == book_id && s.user_id == user_id)

/-- The invariant enforced by the unique index `idx_book_summaries_unique`:
no two rows share the same `(book_id, user_id)` pair. -/
def uniquePair (db : Store) : Prop :=
  db.Pairwise (fun a b => ¬(a.book_id = b.book_id ∧ a.user_id = b.user_id))

instance uniquePair.instDecidable (db : Store) : Decidable (uniquePair db) :=
  List.instDecidablePairwise db

/-- Source `Llama3ServiceRouter.get_cached_summary` (llama3_service/routes.py
54-66): `SELECT ... WHERE book_id = ... AND user_id = ...`, returning the
row if present.  (`scalar_one_or_none` assumes at most one match, which the
unique index guarantees; the embedding returns the first match.) -/
def get_cached_summary (db : Store) (book_id user_id : Nat) :
    Option BookSummary :=
  db.find? (fun s => s.book_id == book_id && s.user_id == user_id)

/-- The single HTTP response the adapter observes from the Ollama backend:
either the connection fails (`httpx.RequestError`), or a reply arrives with
a status code, a flag for whether the JSON body has the `"response"` field,
and (when present) that field's text. -/
inductive BackendResponse
  | networkError
  | reply (statusCode : Nat) (hasResponseField : Bool) (text : String)
deriving Repr, DecidableEq

/-- Source `Llama3ServiceRouter._generate_summary` (llama3_service/routes.py
79-129), the backend adapter.  The code performs exactly one
`client.post` — the second component counts the attempts it makes, which is
always 1.  Classification, in source order: non-200 status → 500; missing
`"response"` field → 500; connection failure → 503. -/
def _generate_summary (backend : BackendResponse) :
    Except HTTPError String × Nat :=
  match backend with
  | .networkError => (.error ⟨503, "Failed to connect to Ollama API"⟩, 1)
  | .reply statusCode hasResponseField text =>
    if statusCode ≠ 200 then
      (.error ⟨500, "Ollama API error"⟩, 1)
    else if !hasResponseField then
      (.error ⟨500, "Unexpected Ollama API response format"⟩, 1)
    else
      (.ok text, 1)

/-- Result of one `generate_summary` call: the HTTP outcome, the store
contents afterwards, and how many times the Ollama backend was invoked. -/
structure GenResult where
  outcome : Except HTTPError BookSummary
  db : Store
  backendCalls : Nat
deriving Repr, DecidableEq

/-- Source `Llama3ServiceRouter.generate_summary` (llama3_service/routes.py
131-211).  Parameters:

* `bookCheck` — the result of `verify_book_exists` (utils/book.py): a
  boolean, or an HTTPException (401 / 500 / 503) that propagates.
* `db` — the store contents the cache lookup reads.
* `dbAtCommit` — the store contents at commit time.  Concurrent writers may
  insert rows between the lookup and the commit; in a single-threaded run
  `dbAtCommit = db`.
* `backend` — the Ollama response observed if `_generate_summary` runs.
* `nextId`, `now` — the autoincrement id used for an insert and the current
  clock tick (`datetime.utcnow`, also used by the `onupdate` hook).

Control flow from the source: 404 when the book does not exist; cached row
returned as-is when present and `refresh` is false; otherwise the backend
is called, then either the existing row is updated in place
(content, summary, `updated_at` via `onupdate`) or a new row is inserted.
A commit that violates the unique index raises `IntegrityError`, which the
generic `except Exception` handler turns into a 500 with detail
"An error occurred while generating summary" (no re-fetch, no write). -/
def generate_summary (bookCheck : Except HTTPError Bool) (db dbAtCommit : Store)
    (backend : BackendResponse) (book_id user_id : Nat) (content : String)
    (refresh : Bool) (nextId now : Nat) : GenResult :=
  match bookCheck with
  | .error e => ⟨.error e, dbAtCommit, 0⟩
  | .ok false =>
    ⟨.error ⟨404, "Book with ID " ++ toString book_id ++ " not found"⟩,
      dbAtCommit, 0⟩
  | .ok true =>
    match get_cached_summary db book_id user_id with
    | some existing =>
      if refresh then
        match (_generate_summary backend).1 with
        | .error e => ⟨.error e, dbAtCommit, 1⟩
        | .ok text =>
          let updated : BookSummary :=
            { existing with content := content, summary := text,
                            updated_at := now }
          ⟨.ok updated,
            dbAtCommit.map (fun r =>
              if r.book_id == book_id && r.user_id == user_id then
                { r with content := content, summary := text,
                         updated_at := now }
              else r),
            1⟩
      else
        ⟨.ok existing, dbAtCommit, 0⟩
    | none =>
      match (_generate_summary backend).1 with
      | .error e => ⟨.error e, dbAtCommit, 1⟩
      | .ok text =>
        if hasPair dbAtCommit book_id user_id then
          ⟨.error ⟨500, "An error occurred while generating summary"⟩,
            dbAtCommit, 1⟩
        else
          let newRow : BookSummary :=
            ⟨nextId, book_id, user_id, content, text, now, now⟩
          ⟨.ok newRow, dbAtCommit ++ [newRow], 1⟩

/-- The HTTP boundary of `generate_summary`: the request body is validated
against `BookSummaryCreate` (llama3_service/schemas.py, `content` has
`min_length=1`), so an empty `content` is rejected with a 422 before the
handler runs — no book check, no lookup, no backend call, no write. -/
def generate_summary_endpoint (bookCheck : Except HTTPError Bool)
    (db dbAtCommit : Store) (backend : BackendResponse)
    (book_id user_id : Nat) (content : String) (refresh : Bool)
    (nextId now : Nat) : GenResult :=
  if content.length = 0 then
    ⟨.error ⟨422, "String should have at least 1 character"⟩, dbAtCommit, 0⟩
  else
    generate_summary bookCheck db dbAtCommit backend book_id user_id content
      refresh nextId now

/-- Source `Llama3ServiceRouter.get_summary` (llama3_service/routes.py 213-255):
read-only lookup of the summary for `(book_id, user_id)`, 404 when absent. -/
def get_summary (db : Store) (book_id user_id : Nat) :
    Except HTTPError BookSummary :=
  match db.find? (fun s => s.book_id == book_id && s.user_id == user_id) with
  | some s => .ok s
  | none => .error ⟨404, "Summary not found"⟩

end Llama3

namespace ReviewSvc

/-- One row of the `reviews` table (review_service/models.py, `Review`):
float rating (modelled as `ℚ`), nullable comment. -/
structure Review where
  id : Nat
  book_id : Nat
  user_id : Nat
  rating : ℚ
  comment : Option String
  created_at : Nat
  updated_at : Nat
deriving Repr, DecidableEq

/-- Response model `BookReviewsSummary` (review_service/schemas.py). -/
structure BookReviewsSummary where
  book_id : Nat
  summary : String
  average_rating : ℚ
  total_reviews : Nat
deriving Repr, DecidableEq

/-- Query `SELECT ... WHERE Review.book_id == book_id` — the rows both queries of
the endpoint see. -/
def reviewsFor (db : List Review) (book_id : Nat) : List Review :=
  db.filter (fun r => r.book_id == book_id)

/-- The comment texts joined by the list comprehension
`[r.comment for r in reviews if r.comment]` — `None` and `""` are falsy and
dropped. -/
def commentTexts (reviews : List Review) : List String :=
  reviews.filterMap (fun r =>
    match r.comment with
    | some c => if c = "" then none else some c
    | none => none)

/-- Source `get_book_reviews_summary` (review_service/routes.py 367-413).  The
second component counts invocations of the llama3 summary service: the
handler never calls it, so the count is 0 on every path.  Control flow from
the source: the aggregate query yields `(AVG(rating), COUNT(id))` over the
book's reviews; a zero count raises 404; otherwise the comments are joined
with `" "`, truncated to 500 characters with a `"..."` suffix when longer,
and returned together with the average rating and the count. -/
def get_book_reviews_summary (db : List Review) (book_id : Nat) :
    Except HTTPError BookReviewsSummary × Nat :=
  let reviews := reviewsFor db book_id
  let total_reviews := reviews.length
  if total_reviews = 0 then
    (.error ⟨404, "No reviews found for book " ++ toString book_id⟩, 0)
  else
    let average_rating :=
      (reviews.map (fun r => r.rating)).sum / (total_reviews : ℚ)
    let all_comments := String.intercalate " " (commentTexts reviews)
    let summary :=
      if all_comments.length > 500 then (all_comments.take 500) ++ "..."
      else all_comments
    (.ok ⟨book_id, summary, average_rating, total_reviews⟩, 0)

end ReviewSvc

namespace BookSvc

/-- One row of the `books` table (book_service/models.py, `Book`). -/
structure Book where
  id : Nat
  title : String
  author : Option String
  genre : Option String
  year_published : Option Nat
  summary : Option String
  created_at : Nat
  updated_at : Nat
deriving Repr, DecidableEq

/-- Request body `BookCreate` (book_service/schemas.py): all fields but
`title` optional. -/
structure BookCreate where
  title : String
  author : Option String
  genre : Option String
  year_published : Option Nat
  summary : Option String
deriving Repr, DecidableEq

/-- Python truthiness of the optional `book.summary` payload field
(`if book.summary:`): `None` and `""` are falsy. -/
def truthy : Option String → Bool
  | none => false
  | some s => !(s = "")

/-- Source `create_book` (book_service/routes.py 22-92).  `gen` is the outcome of
`generate_book_summary` (book_service/book_utils.py), the call into the
llama3 service, observed only when the payload's `summary` is truthy.  The
book row is committed first; when generation succeeds the row's `summary`
is replaced by the generated text and committed again; when generation
fails the exception is caught, logged, and the create still succeeds with
the caller-supplied `summary` intact. -/
def create_book (db : List Book) (book : BookCreate)
    (gen : Except HTTPError String) (nextId now : Nat) :
    List Book × Except HTTPError Book :=
  let db_book : Book :=
    ⟨nextId, book.title, book.author, book.genre, book.year_published,
      book.summary, now, now⟩
  if truthy book.summary then
    match gen with
    | .ok text =>
      let enriched := { db_book with summary := some text }
      (db ++ [enriched], .ok enriched)
    | .error _ => (db ++ [db_book], .ok db_book)
  else
    (db ++ [db_book], .ok db_book)

/-- Source `update_book` (book_service/routes.py 191-268).  404 when the book id is
absent; otherwise every payload field overwrites the row
(`for key, value in book.dict().items(): setattr(...)`), then — when the
payload's `summary` is truthy — generation is attempted: on success the
row's `summary` becomes the generated text, on failure the exception is
caught and the update still succeeds with the payload's `summary`.
`updated_at` is bumped by the `onupdate` hook at commit. -/
def update_book (db : List Book) (book_id : Nat) (book : BookCreate)
    (gen : Except HTTPError String) (now : Nat) :
    List Book × Except HTTPError Book :=
  match db.find? (fun b => b.id == book_id) with
  | none =>
    (db, .error ⟨404, "Book with ID " ++ toString book_id ++ " not found"⟩)
  | some db_book =>
    let base : Book :=
      { db_book with title := book.title, author := book.author,
                     genre := book.genre,
                     year_published := book.year_published,
                     summary := book.summary, updated_at := now }
    let final :=
      if truthy book.summary then
        match gen with
        | .ok text => { base with summary := some text }
        | .error _ => base
      else base
    (db.map (fun b => if b.id == book_id then final else b), .ok final)

end BookSvc

namespace RecSvc

/-- One row of the `preferences` table (recommendation_service/models.py,
`Preference`).  Note: no uniqueness constraint on `(user_id, genre)` — the
same genre can be stored several times for one user. -/
structure Preference where
  id : Nat
  user_id : Nat
  genre : String
deriving Repr, DecidableEq

/-- Response model `BookRecommendation`
(recommendation_service/schemas.py). -/
structure BookRecommendation where
  id : Nat
  title : String
  author : Option String
  genre : Option String
  year_published : Option Nat
  summary : Option String
deriving Repr, DecidableEq

/-- The inner loop of `get_recommendations`
(recommendation_service/routes.py 124-128): append each fetched book whose
id has not been seen.  The source keeps a `seen_books` set of ids; since
that set always holds exactly the ids of the accumulated `recommendations`
list, membership is checked against the accumulated list here. -/
def addBooks (recs : List BookRecommendation)
    (books : List BookRecommendation) : List BookRecommendation :=
  books.foldl
    (fun acc bk =>
      if acc.any (fun x => x.id == bk.id) then acc else acc ++ [bk])
    recs

/-- The outer loop of `get_recommendations`
(recommendation_service/routes.py 122-128): one `get_books_by_genre` call
per stored preference row, in order; `calls` counts those catalog
queries. -/
def recLoop (prefs : List Preference)
    (catalog : String → List BookRecommendation)
    (recs : List BookRecommendation) (calls : Nat) :
    List BookRecommendation × Nat :=
  match prefs with
  | [] => (recs, calls)
  | p :: rest => recLoop rest catalog (addBooks recs (catalog p.genre)) (calls + 1)

/-- Source `RecommendationServiceRouter.get_recommendations`
(recommendation_service/routes.py 99-144).  `catalog` maps a genre to the
book list the Catalog Service returns for it.  Zero stored preferences →
404; otherwise one catalog query per preference row, de-duplicating the
accumulated result by book id. -/
def get_recommendations (prefs : List Preference)
    (catalog : String → List BookRecommendation) :
    Except HTTPError (List BookRecommendation) × Nat :=
  if prefs.isEmpty then
    (.error ⟨404, "No preferences found for user"⟩, 0)
  else
    let rc := recLoop prefs catalog [] 0
    (.ok rc.1, rc.2)

/-- The distinct genres among the stored preferences — the unit of fan-out
the specification describes ("query the Catalog Service once per distinct
genre"). -/
def distinctGenres (prefs : List Preference) : List String :=
  (prefs.map (fun p => p.genre)).eraseDups

/-- The concatenation of the per-preference catalog answers, in preference
order — the multiset of books the fan-out fetches before de-duplication. -/
def flattenedBooks (prefs : List Preference)
    (catalog : String → List BookRecommendation) :
    List BookRecommendation :=
  match prefs with
  | [] => []
  | p :: rest => catalog p.genre ++ flattenedBooks rest catalog

/-- De-duplicated union keyed by book id, preserving first-seen order — the
specification's description of the fan-out result: keep each id's first
occurrence, drop every later one. -/
def dedupFirst : List BookRecommendation → List BookRecommendation
  | [] => []
  | b :: bs => b :: dedupFirst (bs.filter (fun x => !(x.id == b.id)))
termination_by l => l.length
decreasing_by
  simp only [List.length_cons]
  exact Nat.lt_succ_of_le (List.length_filter_le _ _)

end RecSvc

/-- A map that does not touch the key fields `(book_id, user_id)` preserves
the unique-index invariant. -/
theorem uniquePair_map_preserve (db : Llama3.Store)
    (f : Llama3.BookSummary → Llama3.BookSummary)
    (hf : ∀ x, (f x).book_id = x.book_id ∧ (f x).user_id = x.user_id)
    (h : Llama3.uniquePair db) : Llama3.uniquePair (db.map f) := by
  refine List.Pairwise.map f (fun a c hac => ?_) h
  intro hk
  exact hac ⟨by rw [← (hf a).1, ← (hf c).1]; exact hk.1,
    by rw [← (hf a).2, ← (hf c).2]; exact hk.2⟩

/-- The cache lookup still finds the row for `(b, u)` after the refresh-path
update map, and sees the rewritten fields. -/
theorem get_cached_summary_after_update (st : Llama3.Store) (b u : Nat)
    (c t : String) (now : Nat) (r : Llama3.BookSummary)
    (h : Llama3.get_cached_summary st b u = some r) :
    Llama3.get_cached_summary
      (st.map (fun x => if x.book_id == b && x.user_id == u then
        { x with content := c, summary := t, updated_at := now } else x)) b u
      = some { r with content := c, summary := t, updated_at := now } := by
  induction st with
  | nil => simp [Llama3.get_cached_summary] at h
  | cons a tl ih =>
    rcases hk : (a.book_id == b && a.user_id == u) with _ | _
    · have h' : Llama3.get_cached_summary tl b u = some r := by
        simpa [Llama3.get_cached_summary, List.find?, hk] using h
      simpa [Llama3.get_cached_summary, List.find?, hk] using ih h'
    · have ha : a = r := by
        simpa [Llama3.get_cached_summary, List.find?, hk] using h
      subst ha
      simp [Llama3.get_cached_summary, List.find?, hk]

/-- C1: with an existing Summary Record for `(subjectId, requesterId)` and
`forceRefresh = false`, `generate_summary` returns the stored record
unchanged — whatever the backend would answer, the backend is not invoked,
the store is not written — and a second identical call returns the same
record, hence byte-identical summary text. -/
theorem generate_summary_cache_hit (st : Llama3.Store)
    (bc bc' : Llama3.BackendResponse) (b u : Nat) (c c' : String)
    (r : Llama3.BookSummary) (nid nid' now now' : Nat)
    (h : Llama3.get_cached_summary st b u = some r) :
    (Llama3.generate_summary (.ok true) st st bc b u c false nid now).outcome
        = .ok r ∧
    (Llama3.generate_summary (.ok true) st st bc b u c false nid now).db = st ∧
    (Llama3.generate_summary (.ok true) st st bc b u c false nid now).backendCalls
        = 0 ∧
    (Llama3.generate_summary (.ok true)
        (Llama3.generate_summary (.ok true) st st bc b u c false nid now).db
        (Llama3.generate_summary (.ok true) st st bc b u c false nid now).db
        bc' b u c' false nid' now').outcome = .ok r := by
  simp [Llama3.generate_summary, h]

/-- C1 witness: a concrete cache hit. -/
theorem generate_summary_cache_hit_witness :
    Llama3.get_cached_summary [⟨1, 2, 3, "text", "sum", 0, 0⟩] 2 3
        = some ⟨1, 2, 3, "text", "sum", 0, 0⟩ ∧
    ((Llama3.generate_summary (.ok true) [⟨1, 2, 3, "text", "sum", 0, 0⟩]
        [⟨1, 2, 3, "text", "sum", 0, 0⟩] .networkError 2 3 "text" false 9
        7).outcome = .ok ⟨1, 2, 3, "text", "sum", 0, 0⟩ ∧
      (Llama3.generate_summary (.ok true) [⟨1, 2, 3, "text", "sum", 0, 0⟩]
        [⟨1, 2, 3, "text", "sum", 0, 0⟩] .networkError 2 3 "text" false 9
        7).db = [⟨1, 2, 3, "text", "sum", 0, 0⟩] ∧
      (Llama3.generate_summary (.ok true) [⟨1, 2, 3, "text", "sum", 0, 0⟩]
        [⟨1, 2, 3, "text", "sum", 0, 0⟩] .networkError 2 3 "text" false 9
        7).backendCalls = 0 ∧
      (Llama3.generate_summary (.ok true)
        (Llama3.generate_summary (.ok true) [⟨1, 2, 3, "text", "sum", 0, 0⟩]
          [⟨1, 2, 3, "text", "sum", 0, 0⟩] .networkError 2 3 "text" false 9
          7).db
        (Llama3.generate_summary (.ok true) [⟨1, 2, 3, "text", "sum", 0, 0⟩]
          [⟨1, 2, 3, "text", "sum", 0, 0⟩] .networkError 2 3 "text" false 9
          7).db
        (.reply 200 true "other") 2 3 "text2" false 10 8).outcome
          = .ok ⟨1, 2, 3, "text", "sum", 0, 0⟩) :=
  ⟨by decide,
    generate_summary_cache_hit [⟨1, 2, 3, "text", "sum", 0, 0⟩] .networkError
      (.reply 200 true "other") 2 3 "text" "text2"
      ⟨1, 2, 3, "text", "sum", 0, 0⟩ 9 10 7 8 (by decide)⟩

/-- C2: the unique index `idx_book_summaries_unique` over
`(book_id, user_id)` is an invariant of the workflow: it holds of the empty
store, and every `generate_summary` call — whatever happened concurrently
between lookup and commit — leaves a store in which at most one row exists
per pair.  (`get_summary` is read-only.)  The create path may only append
its row when no row for the pair is present at commit time; otherwise the
insert is refused. -/
theorem generate_summary_preserves_unique_index
    (bookCheck : Except HTTPError Bool) (db dbAtCommit : Llama3.Store)
    (bc : Llama3.BackendResponse) (b u : Nat) (c : String)
    (refresh : Bool) (nid now : Nat)
    (h : Llama3.uniquePair dbAtCommit) :
    Llama3.uniquePair
      (Llama3.generate_summary bookCheck db dbAtCommit bc b u c refresh nid
        now).db ∧
    Llama3.uniquePair ([] : Llama3.Store) := by
  refine ⟨?_, List.Pairwise.nil⟩
  rcases bookCheck with e | tf
  · simpa [Llama3.generate_summary] using h
  cases tf
  · simpa [Llama3.generate_summary] using h
  rcases hc : Llama3.get_cached_summary db b u with _ | s
  · rcases hg : (Llama3._generate_summary bc).1 with e | t
    · simpa [Llama3.generate_summary, hc, hg] using h
    rcases hp : Llama3.hasPair dbAtCommit b u with _ | _
    · have hnp : ∀ a ∈ dbAtCommit, ¬(a.book_id = b ∧ a.user_id = u) := by
        intro a ha hcontra
        have : Llama3.hasPair dbAtCommit b u = true := by
          simp only [Llama3.hasPair, List.any_eq_true]
          exact ⟨a, ha, by simp [hcontra.1, hcontra.2]⟩
        rw [this] at hp
        simp at hp
      simp only [Llama3.generate_summary, hc, hg, hp, Bool.false_eq_true,
        if_false]
      unfold Llama3.uniquePair
      rw [List.pairwise_append]
      refine ⟨h, by simp, ?_⟩
      intro a ha x hx
      have hx' : x = ⟨nid, b, u, c, t, now, now⟩ := by simpa using hx
      subst hx'
      exact hnp a ha
    · simpa [Llama3.generate_summary, hc, hg, hp] using h
  cases refresh
  · simpa [Llama3.generate_summary, hc] using h
  rcases hg : (Llama3._generate_summary bc).1 with e | t
  · simpa [Llama3.generate_summary, hc, hg] using h
  · simp only [Llama3.generate_summary, hc, hg, if_true]
    exact uniquePair_map_preserve dbAtCommit _
      (fun x => by constructor <;> (dsimp only; split <;> rfl)) h

/-- C2 witness: a concrete store satisfying the invariant, preserved by a
concrete call. -/
theorem generate_summary_preserves_unique_index_witness :
    Llama3.uniquePair [⟨1, 1, 1, "c", "s", 0, 0⟩] ∧
    (Llama3.uniquePair
      (Llama3.generate_summary (.ok true) [⟨1, 1, 1, "c", "s", 0, 0⟩]
        [⟨1, 1, 1, "c", "s", 0, 0⟩] (.reply 200 true "new") 2 2 "x" false 7
        9).db ∧
    Llama3.uniquePair ([] : Llama3.Store)) :=
  ⟨by decide,
    generate_summary_preserves_unique_index (.ok true)
      [⟨1, 1, 1, "c", "s", 0, 0⟩] [⟨1, 1, 1, "c", "s", 0, 0⟩]
      (.reply 200 true "new") 2 2 "x" false 7 9 (by decide)⟩

/-- C4: with `forceRefresh = true` and an existing record, the backend is
invoked (once), the stored row keeps its id but its `content` and `summary`
are replaced by the request content and the newly generated text, and
`updated_at` is bumped to the commit time, so it changes whenever the clock
has moved since the last write. -/
theorem generate_summary_forced_refresh (st : Llama3.Store)
    (bc : Llama3.BackendResponse) (b u : Nat) (c t : String)
    (r : Llama3.BookSummary) (nid now : Nat)
    (h1 : Llama3.get_cached_summary st b u = some r)
    (h2 : (Llama3._generate_summary bc).1 = .ok t)
    (h3 : r.updated_at ≠ now) :
    (Llama3.generate_summary (.ok true) st st bc b u c true nid
        now).backendCalls = 1 ∧
    (Llama3.generate_summary (.ok true) st st bc b u c true nid now).outcome
      = .ok { r with content := c, summary := t, updated_at := now } ∧
    Llama3.get_cached_summary
      (Llama3.generate_summary (.ok true) st st bc b u c true nid now).db b u
      = some { r with content := c, summary := t, updated_at := now } ∧
    ({ r with content := c, summary := t, updated_at := now } :
        Llama3.BookSummary).id = r.id ∧
    ({ r with content := c, summary := t, updated_at := now } :
        Llama3.BookSummary).updated_at ≠ r.updated_at := by
  refine ⟨?_, ?_, ?_, rfl, ?_⟩
  · simp [Llama3.generate_summary, h1, h2]
  · simp [Llama3.generate_summary, h1, h2]
  · simp only [Llama3.generate_summary, h1, h2, if_true]
    exact get_cached_summary_after_update st b u c t now r h1
  · exact fun hEq => h3 hEq.symm

/-- C4 witness: a concrete forced refresh. -/
theorem generate_summary_forced_refresh_witness :
    (Llama3.get_cached_summary [⟨1, 2, 3, "old", "oldsum", 0, 0⟩] 2 3
        = some ⟨1, 2, 3, "old", "oldsum", 0, 0⟩ ∧
      (Llama3._generate_summary (.reply 200 true "newsum")).1 = .ok "newsum" ∧
      (0 : Nat) ≠ 5) ∧
    ((Llama3.generate_summary (.ok true) [⟨1, 2, 3, "old", "oldsum", 0, 0⟩]
        [⟨1, 2, 3, "old", "oldsum", 0, 0⟩] (.reply 200 true "newsum") 2 3
        "newc" true 9 5).backendCalls = 1 ∧
      (Llama3.generate_summary (.ok true) [⟨1, 2, 3, "old", "oldsum", 0, 0⟩]
        [⟨1, 2, 3, "old", "oldsum", 0, 0⟩] (.reply 200 true "newsum") 2 3
        "newc" true 9 5).outcome = .ok ⟨1, 2, 3, "newc", "newsum", 0, 5⟩ ∧
      Llama3.get_cached_summary
        (Llama3.generate_summary (.ok true) [⟨1, 2, 3, "old", "oldsum", 0, 0⟩]
          [⟨1, 2, 3, "old", "oldsum", 0, 0⟩] (.reply 200 true "newsum") 2 3
          "newc" true 9 5).db 2 3 = some ⟨1, 2, 3, "newc", "newsum", 0, 5⟩ ∧
      (⟨1, 2, 3, "newc", "newsum", 0, 5⟩ : Llama3.BookSummary).id
        = (⟨1, 2, 3, "old", "oldsum", 0, 0⟩ : Llama3.BookSummary).id ∧
      (⟨1, 2, 3, "newc", "newsum", 0, 5⟩ : Llama3.BookSummary).updated_at
        ≠ (⟨1, 2, 3, "old", "oldsum", 0, 0⟩ :
            Llama3.BookSummary).updated_at) :=
  ⟨⟨by decide, by decide, by decide⟩,
    generate_summary_forced_refresh [⟨1, 2, 3, "old", "oldsum", 0, 0⟩]
      (.reply 200 true "newsum") 2 3 "newc" "newsum"
      ⟨1, 2, 3, "old", "oldsum", 0, 0⟩ 9 5 (by decide) (by decide)
      (by decide)⟩

/-- C5 counterexample: cache miss, backend succeeds, but a row for the pair
`(1, 1)` was committed concurrently (it is in the store at commit time).
The insert violates the unique index and the handler answers with the
generic 500 — it does not re-fetch and return the winning record, contrary
to the claim. -/
theorem generate_summary_race_counterexample :
    (Llama3.generate_summary (.ok true) [] [⟨1, 1, 1, "c0", "s0", 0, 0⟩]
        (.reply 200 true "new") 1 1 "x" false 2 5).outcome
      = .error ⟨500, "An error occurred while generating summary"⟩ ∧
    (Llama3.generate_summary (.ok true) [] [⟨1, 1, 1, "c0", "s0", 0, 0⟩]
        (.reply 200 true "new") 1 1 "x" false 2 5).outcome
      ≠ .ok ⟨1, 1, 1, "c0", "s0", 0, 0⟩ := by
  decide

/-- C5 (amended): when the create-path insert hits a uniqueness violation
(a row for the pair exists at commit time although the cache lookup missed),
the generic exception handler surfaces a 500 with detail "An error occurred
while generating summary"; no re-fetch happens, the winning row stays the
only one for the pair, and the backend was invoked once. -/
theorem generate_summary_race_maps_to_500 (db dbAtCommit : Llama3.Store)
    (bc : Llama3.BackendResponse) (b u : Nat) (c t : String) (nid now : Nat)
    (h1 : Llama3.get_cached_summary db b u = none)
    (h2 : (Llama3._generate_summary bc).1 = .ok t)
    (h3 : Llama3.hasPair dbAtCommit b u = true) :
    (Llama3.generate_summary (.ok true) db dbAtCommit bc b u c false nid
        now).outcome
      = .error ⟨500, "An error occurred while generating summary"⟩ ∧
    (Llama3.generate_summary (.ok true) db dbAtCommit bc b u c false nid
        now).db = dbAtCommit ∧
    (Llama3.generate_summary (.ok true) db dbAtCommit bc b u c false nid
        now).backendCalls = 1 := by
  simp [Llama3.generate_summary, h1, h2, h3]

/-- C5 amended witness: concrete instance of the race. -/
theorem generate_summary_race_maps_to_500_witness :
    (Llama3.get_cached_summary [] 1 1 = none ∧
      (Llama3._generate_summary (.reply 200 true "new")).1 = .ok "new" ∧
      Llama3.hasPair [⟨1, 1, 1, "c0", "s0", 0, 0⟩] 1 1 = true) ∧
    ((Llama3.generate_summary (.ok true) [] [⟨1, 1, 1, "c0", "s0", 0, 0⟩]
        (.reply 200 true "new") 1 1 "x" false 2 5).outcome
      = .error ⟨500, "An error occurred while generating summary"⟩ ∧
      (Llama3.generate_summary (.ok true) [] [⟨1, 1, 1, "c0", "s0", 0, 0⟩]
        (.reply 200 true "new") 1 1 "x" false 2 5).db
        = [⟨1, 1, 1, "c0", "s0", 0, 0⟩] ∧
      (Llama3.generate_summary (.ok true) [] [⟨1, 1, 1, "c0", "s0", 0, 0⟩]
        (.reply 200 true "new") 1 1 "x" false 2 5).backendCalls = 1) :=
  ⟨⟨by decide, by decide, by decide⟩,
    generate_summary_race_maps_to_500 [] [⟨1, 1, 1, "c0", "s0", 0, 0⟩]
      (.reply 200 true "new") 1 1 "x" "new" 2 5 (by decide) (by decide)
      (by decide)⟩

/-- C6: an empty `content` is rejected by the request-body validation with
a 422 before the handler runs: no backend call, no write, store unchanged —
for every book-check outcome, store, backend behaviour and flag value. -/
theorem generate_summary_empty_content (bookCheck : Except HTTPError Bool)
    (db dbAtCommit : Llama3.Store) (bc : Llama3.BackendResponse)
    (b u : Nat) (refresh : Bool) (nid now : Nat) :
    (Llama3.generate_summary_endpoint bookCheck db dbAtCommit bc b u ""
        refresh nid now).outcome
      = .error ⟨422, "String should have at least 1 character"⟩ ∧
    (Llama3.generate_summary_endpoint bookCheck db dbAtCommit bc b u ""
        refresh nid now).db = dbAtCommit ∧
    (Llama3.generate_summary_endpoint bookCheck db dbAtCommit bc b u ""
        refresh nid now).backendCalls = 0 := by
  simp [Llama3.generate_summary_endpoint]

/-- C8: the backend adapter makes exactly one attempt per call, and
classifies failures distinguishably: connection failure → 503, reachable
but non-200 status → 500, status 200 with the `"response"` field missing →
500; on status 200 with the field present it returns the field's text. -/
theorem backend_adapter_classification (statusCode : Nat) (hasField : Bool)
    (t : String) :
    (Llama3._generate_summary .networkError).2 = 1 ∧
    (Llama3._generate_summary (.reply statusCode hasField t)).2 = 1 ∧
    (Llama3._generate_summary .networkError).1
      = .error ⟨503, "Failed to connect to Ollama API"⟩ ∧
    (statusCode ≠ 200 →
      (Llama3._generate_summary (.reply statusCode hasField t)).1
        = .error ⟨500, "Ollama API error"⟩) ∧
    (Llama3._generate_summary (.reply 200 false t)).1
      = .error ⟨500, "Unexpected Ollama API response format"⟩ ∧
    (Llama3._generate_summary (.reply 200 true t)).1 = .ok t := by
  refine ⟨rfl, ?_, rfl, ?_, rfl, rfl⟩
  · by_cases h : statusCode = 200
    · cases hasField <;> simp [Llama3._generate_summary, h]
    · simp [Llama3._generate_summary, h]
  · intro h
    simp [Llama3._generate_summary, h]

/-- C8 witness: concrete classification of a reachable backend answering
status 500. -/
theorem backend_adapter_classification_witness :
    (500 ≠ 200) ∧
    (Llama3._generate_summary (.reply 500 false "ignored")).1
      = .error ⟨500, "Ollama API error"⟩ :=
  ⟨by decide,
    (backend_adapter_classification 500 false "ignored").2.2.2.1 (by decide)⟩

/-- C7: when the opportunistic summary-generation call fails during a
Catalog create or update, the parent operation still succeeds and returns
the record with the caller-supplied `summary` text intact; the `summary`
field is replaced by generated text only when generation succeeds. -/
theorem opportunistic_summary_failure_isolated (db db2 : List BookSvc.Book)
    (book bookU : BookSvc.BookCreate) (e e2 : HTTPError)
    (nid now now2 bid : Nat) (r : BookSvc.Book) (t : String)
    (hfind : db2.find? (fun x => x.id == bid) = some r) :
    (BookSvc.create_book db book (.error e) nid now).2
      = .ok ⟨nid, book.title, book.author, book.genre, book.year_published,
          book.summary, now, now⟩ ∧
    (BookSvc.update_book db2 bid bookU (.error e2) now2).2
      = .ok { r with
          title := bookU.title,
          author := bookU.author,
          genre := bookU.genre,
          year_published := bookU.year_published,
          summary := bookU.summary,
          updated_at := now2 } ∧
    (BookSvc.truthy book.summary = true →
      (BookSvc.create_book db book (.ok t) nid now).2
        = .ok ⟨nid, book.title, book.author, book.genre,
            book.year_published, some t, now, now⟩) := by
  refine ⟨?_, ?_, ?_⟩
  · rcases ht : BookSvc.truthy book.summary with _ | _ <;>
      simp [BookSvc.create_book, ht]
  · rcases ht : BookSvc.truthy bookU.summary with _ | _ <;>
      simp [BookSvc.update_book, hfind, ht]
  · intro ht
    simp [BookSvc.create_book, ht]

/-- C7 witness: concrete create and update with a failing generation call,
and a concrete successful generation. -/
theorem opportunistic_summary_failure_isolated_witness :
    ([⟨4, "B", none, none, none, some "raw2", 0, 0⟩] :
        List BookSvc.Book).find? (fun x => x.id == 4)
      = some ⟨4, "B", none, none, none, some "raw2", 0, 0⟩ ∧
    ((BookSvc.create_book [] ⟨"A", none, none, none, some "raw"⟩
        (.error ⟨503, "down"⟩) 1 3).2
      = .ok ⟨1, "A", none, none, none, some "raw", 3, 3⟩ ∧
    (BookSvc.update_book [⟨4, "B", none, none, none, some "raw2", 0, 0⟩] 4
        ⟨"B2", none, none, none, some "raw3"⟩ (.error ⟨500, "bad"⟩) 8).2
      = .ok ⟨4, "B2", none, none, none, some "raw3", 0, 8⟩ ∧
    (BookSvc.truthy (some "raw") = true →
      (BookSvc.create_book [] ⟨"A", none, none, none, some "raw"⟩
          (.ok "gen") 1 3).2
        = .ok ⟨1, "A", none, none, none, some "gen", 3, 3⟩)) :=
  ⟨by decide,
    opportunistic_summary_failure_isolated []
      [⟨4, "B", none, none, none, some "raw2", 0, 0⟩]
      ⟨"A", none, none, none, some "raw"⟩ ⟨"B2", none, none, none, some "raw3"⟩
      ⟨503, "down"⟩ ⟨500, "bad"⟩ 1 3 8 4
      ⟨4, "B", none, none, none, some "raw2", 0, 0⟩ "gen" (by decide)⟩

/-- C10: when the Catalog Service reports the book absent,
`generate_summary` fails with 404 before the cache lookup, backend call or
any write: for every store and backend behaviour the store is unchanged and
the backend is invoked zero times. -/
theorem generate_summary_book_missing (db dbAtCommit : Llama3.Store)
    (bc : Llama3.BackendResponse) (b u : Nat) (c : String) (refresh : Bool)
    (nid now : Nat) :
    (Llama3.generate_summary (.ok false) db dbAtCommit bc b u c refresh nid
        now).outcome
      = .error ⟨404, "Book with ID " ++ toString b ++ " not found"⟩ ∧
    (Llama3.generate_summary (.ok false) db dbAtCommit bc b u c refresh nid
        now).db = dbAtCommit ∧
    (Llama3.generate_summary (.ok false) db dbAtCommit bc b u c refresh nid
        now).backendCalls = 0 := by
  simp [Llama3.generate_summary]

/-- C3 counterexample: a book with one stored review (rating 5, comment
"Great").  The implemented reviews-summary endpoint returns the raw comment
text "Great" as the summary — no rating is woven into a concatenated
format, and the summary generator (`getOrCreateSummary` or any llama3
endpoint) is invoked zero times, contrary to the claim. -/
theorem reviews_summary_counterexample :
    (ReviewSvc.get_book_reviews_summary [⟨1, 1, 1, 5, some "Great", 0, 0⟩]
        1).1 = .ok ⟨1, "Great", 5, 1⟩ ∧
    (ReviewSvc.get_book_reviews_summary [⟨1, 1, 1, 5, some "Great", 0, 0⟩]
        1).2 = 0 := by
  constructor
  · simp [ReviewSvc.get_book_reviews_summary, ReviewSvc.reviewsFor,
      ReviewSvc.commentTexts, List.filter, List.filterMap]
    decide
  · rfl

/-- C3 (amended): with at least one review the endpoint succeeds, returning
the subject id, the non-empty comment texts joined with single spaces
(rating not included) truncated to 500 characters with a "..." suffix when
longer, the arithmetic mean of the ratings, and the review count — without
invoking the summary generator; with zero reviews it fails with 404. -/
theorem reviews_summary_behavior (db db0 : List ReviewSvc.Review)
    (book_id bid0 : Nat)
    (h : ReviewSvc.reviewsFor db book_id ≠ [])
    (h0 : ReviewSvc.reviewsFor db0 bid0 = []) :
    (ReviewSvc.get_book_reviews_summary db book_id).2 = 0 ∧
    (ReviewSvc.get_book_reviews_summary db book_id).1
      = .ok ⟨book_id,
          (if (String.intercalate " "
                (ReviewSvc.commentTexts
                  (ReviewSvc.reviewsFor db book_id))).length > 500 then
            (String.intercalate " "
              (ReviewSvc.commentTexts
                (ReviewSvc.reviewsFor db book_id))).take 500 ++ "..."
          else
            String.intercalate " "
              (ReviewSvc.commentTexts (ReviewSvc.reviewsFor db book_id))),
          ((ReviewSvc.reviewsFor db book_id).map (fun r => r.rating)).sum
            / ((ReviewSvc.reviewsFor db book_id).length : ℚ),
          (ReviewSvc.reviewsFor db book_id).length⟩ ∧
    (((ReviewSvc.reviewsFor db book_id).map (fun r => r.rating)).sum
        / ((ReviewSvc.reviewsFor db book_id).length : ℚ))
      * ((ReviewSvc.reviewsFor db book_id).length : ℚ)
      = ((ReviewSvc.reviewsFor db book_id).map (fun r => r.rating)).sum ∧
    (ReviewSvc.get_book_reviews_summary db0 bid0).1
      = .error ⟨404, "No reviews found for book " ++ toString bid0⟩ := by
  have hlen : (ReviewSvc.reviewsFor db book_id).length ≠ 0 :=
    fun hl => h (List.length_eq_zero.mp hl)
  refine ⟨?_, ?_, ?_, ?_⟩
  · simp only [ReviewSvc.get_book_reviews_summary]
    split <;> rfl
  · simp [ReviewSvc.get_book_reviews_summary, hlen]
  · exact div_mul_cancel₀ _ (by exact_mod_cast hlen)
  · simp [ReviewSvc.get_book_reviews_summary, h0]

/-- C3 amended witness: two reviews with ratings 4 and 5. -/
theorem reviews_summary_behavior_witness :
    (ReviewSvc.reviewsFor
        [⟨1, 1, 1, 4, some "Nice", 0, 0⟩, ⟨2, 1, 2, 5, some "Great", 0, 0⟩]
        1 ≠ [] ∧
      ReviewSvc.reviewsFor ([] : List ReviewSvc.Review) 9 = []) ∧
    ((ReviewSvc.get_book_reviews_summary
        [⟨1, 1, 1, 4, some "Nice", 0, 0⟩, ⟨2, 1, 2, 5, some "Great", 0, 0⟩]
        1).1 = .ok ⟨1, "Nice Great", (9 : ℚ) / 2, 2⟩ ∧
      (ReviewSvc.get_book_reviews_summary
        [⟨1, 1, 1, 4, some "Nice", 0, 0⟩, ⟨2, 1, 2, 5, some "Great", 0, 0⟩]
        1).2 = 0 ∧
      (ReviewSvc.get_book_reviews_summary ([] : List ReviewSvc.Review) 9).1
        = .error ⟨404, "No reviews found for book 9"⟩) :=
  ⟨⟨by decide, by decide⟩, by
    have t := reviews_summary_behavior
      [⟨1, 1, 1, 4, some "Nice", 0, 0⟩, ⟨2, 1, 2, 5, some "Great", 0, 0⟩]
      ([] : List ReviewSvc.Review) 1 9 (by decide) (by decide)
    refine ⟨?_, t.1, t.2.2.2⟩
    rw [t.2.1]
    norm_num [ReviewSvc.reviewsFor, ReviewSvc.commentTexts, List.filter,
      List.filterMap]
    decide⟩

/-- Boolean equality on `Nat` is symmetric. -/
theorem beq_swap (m n : Nat) : (m == n) = (n == m) := by
  cases hmn : m == n <;> cases hnm : n == m <;> simp_all

/-- Folding the dedup step over a concatenation composes. -/
theorem addBooks_append (recs : List RecSvc.BookRecommendation)
    (l₁ l₂ : List RecSvc.BookRecommendation) :
    RecSvc.addBooks (RecSvc.addBooks recs l₁) l₂
      = RecSvc.addBooks recs (l₁ ++ l₂) := by
  simp [RecSvc.addBooks, List.foldl_append]

/-- One step of the dedup fold. -/
theorem addBooks_cons (recs : List RecSvc.BookRecommendation)
    (b : RecSvc.BookRecommendation) (bs : List RecSvc.BookRecommendation) :
    RecSvc.addBooks recs (b :: bs)
      = if recs.any (fun x => x.id == b.id) then RecSvc.addBooks recs bs
        else RecSvc.addBooks (recs ++ [b]) bs := by
  simp only [RecSvc.addBooks, List.foldl_cons]
  cases h : recs.any (fun x => x.id == b.id)
  · rw [if_neg (by simp [h]), if_neg (by simp [h])]
  · rw [if_pos (by simp [h]), if_pos (by simp [h])]

/-- The dedup fold is the first-seen de-duplication of the not-yet-seen part
of its input, appended to the accumulator. -/
theorem addBooks_eq_dedupFirst (l : List RecSvc.BookRecommendation) :
    ∀ recs, RecSvc.addBooks recs l
      = recs ++ RecSvc.dedupFirst
          (l.filter (fun e => !(recs.any (fun x => x.id == e.id)))) := by
  induction l with
  | nil => intro recs; simp [RecSvc.addBooks, RecSvc.dedupFirst]
  | cons b bs ih =>
    intro recs
    rw [addBooks_cons]
    cases h : recs.any (fun x => x.id == b.id) with
    | true =>
      rw [ih recs]
      have hfilter :
          (b :: bs).filter (fun e => !(recs.any (fun x => x.id == e.id)))
            = bs.filter (fun e => !(recs.any (fun x => x.id == e.id))) := by
        simp [List.filter_cons, h]
      rw [if_pos rfl, hfilter]
    | false =>
      rw [if_neg (by simp [h]), ih (recs ++ [b])]
      have hfilter :
          (b :: bs).filter (fun e => !(recs.any (fun x => x.id == e.id)))
            = b :: bs.filter (fun e => !(recs.any (fun x => x.id == e.id))) := by
        simp [List.filter_cons, h]
      rw [hfilter]
      rw [show RecSvc.dedupFirst
            (b :: bs.filter (fun e => !(recs.any (fun x => x.id == e.id))))
          = b :: RecSvc.dedupFirst
              ((bs.filter (fun e => !(recs.any (fun x => x.id == e.id)))).filter
                (fun x => !(x.id == b.id))) from by
        simp [RecSvc.dedupFirst]]
      rw [List.filter_filter, List.append_assoc]
      simp only [List.singleton_append]
      congr 2
      refine congrArg RecSvc.dedupFirst (List.filter_congr ?_)
      intro x _
      simp [List.any_append, Bool.not_or, beq_swap b.id x.id, Bool.and_comm]

/-- Every element of the de-duplicated list comes from the input. -/
theorem dedupFirst_subset :
    ∀ (l : List RecSvc.BookRecommendation), ∀ x ∈ RecSvc.dedupFirst l, x ∈ l := by
  intro l
  induction l using RecSvc.dedupFirst.induct with
  | case1 => simp [RecSvc.dedupFirst]
  | case2 b bs ih =>
    intro x hx
    rw [RecSvc.dedupFirst] at hx
    rcases List.mem_cons.mp hx with h | h
    · exact h ▸ List.mem_cons_self _ _
    · exact List.mem_cons_of_mem _ (List.mem_of_mem_filter (ih x h))

/-- The de-duplicated list has pairwise-distinct book ids. -/
theorem dedupFirst_id_nodup (l : List RecSvc.BookRecommendation) :
    ((RecSvc.dedupFirst l).map (fun b => b.id)).Nodup := by
  induction l using RecSvc.dedupFirst.induct with
  | case1 => simp [RecSvc.dedupFirst]
  | case2 b bs ih =>
    rw [RecSvc.dedupFirst, List.map_cons, List.nodup_cons]
    refine ⟨?_, ih⟩
    intro hmem
    rcases List.mem_map.mp hmem with ⟨y, hy, hid⟩
    have hyf := dedupFirst_subset _ y hy
    have := (List.mem_filter.mp hyf).2
    simp at this
    exact this hid

/-- An id can only survive the de-duplication if it occurs in the input,
and conversely every input id survives. -/
theorem dedupFirst_id_mem (l : List RecSvc.BookRecommendation) (i : Nat) :
    i ∈ (RecSvc.dedupFirst l).map (fun b => b.id)
      ↔ i ∈ l.map (fun b => b.id) := by
  induction l using RecSvc.dedupFirst.induct with
  | case1 => simp [RecSvc.dedupFirst]
  | case2 b bs ih =>
    rw [RecSvc.dedupFirst]
    simp only [List.map_cons, List.mem_cons]
    constructor
    · rintro (h | h)
      · exact Or.inl h
      · right
        rcases List.mem_map.mp (ih.mp h) with ⟨y, hy, hid⟩
        exact List.mem_map.mpr ⟨y, List.mem_of_mem_filter hy, hid⟩
    · rintro (h | h)
      · exact Or.inl h
      · by_cases hib : i = b.id
        · exact Or.inl hib
        · right
          apply ih.mpr
          rcases List.mem_map.mp h with ⟨y, hy, hid⟩
          refine List.mem_map.mpr ⟨y, List.mem_filter.mpr ⟨hy, ?_⟩, hid⟩
          simp [hid, hib]

/-- The fan-out loop performs one catalog query per preference row. -/
theorem recLoop_calls (prefs : List RecSvc.Preference)
    (catalog : String → List RecSvc.BookRecommendation) :
    ∀ recs k, (RecSvc.recLoop prefs catalog recs k).2 = k + prefs.length := by
  induction prefs with
  | nil => intro recs k; simp [RecSvc.recLoop]
  | cons p rest ih =>
    intro recs k
    rw [RecSvc.recLoop, ih]
    simp only [List.length_cons]
    omega

/-- The fan-out loop accumulates exactly the dedup fold of the concatenated
catalog answers. -/
theorem recLoop_recs (prefs : List RecSvc.Preference)
    (catalog : String → List RecSvc.BookRecommendation) :
    ∀ recs k, (RecSvc.recLoop prefs catalog recs k).1
      = RecSvc.addBooks recs (RecSvc.flattenedBooks prefs catalog) := by
  induction prefs with
  | nil =>
    intro recs k
    simp [RecSvc.recLoop, RecSvc.flattenedBooks, RecSvc.addBooks]
  | cons p rest ih =>
    intro recs k
    rw [RecSvc.recLoop, ih, addBooks_append]
    rfl

/-- C9 counterexample: a user whose stored preference list holds the genre
"Fiction" twice.  The code issues one catalog query per stored preference
row — two queries — although only one distinct genre exists, contradicting
"queries the Catalog Service once per distinct genre".  (The result list
itself is still de-duplicated: book id 7 appears once.) -/
theorem fanout_counterexample :
    (RecSvc.get_recommendations [⟨1, 1, "Fiction"⟩, ⟨2, 1, "Fiction"⟩]
        (fun _ => [⟨7, "Dune", none, none, none, none⟩])).2 = 2 ∧
    (RecSvc.distinctGenres [⟨1, 1, "Fiction"⟩, ⟨2, 1, "Fiction"⟩]).length
      = 1 ∧
    (2 : Nat) ≠ 1 ∧
    (RecSvc.get_recommendations [⟨1, 1, "Fiction"⟩, ⟨2, 1, "Fiction"⟩]
        (fun _ => [⟨7, "Dune", none, none, none, none⟩])).1
      = .ok [⟨7, "Dune", none, none, none, none⟩] := by
  decide

/-- C9 (amended): with at least one stored preference the fan-out queries
the Catalog once per stored preference row (duplicate genres are queried
once per row), and returns the de-duplicated union of the answers keyed by
book id preserving first-seen order: the result is exactly the first-seen
de-duplication of the concatenated answers, its ids are pairwise distinct,
and an id appears in it iff some queried answer contained it; with zero
preferences the endpoint fails with 404. -/
theorem fanout_behavior (prefs : List RecSvc.Preference)
    (catalog : String → List RecSvc.BookRecommendation)
    (h : prefs ≠ []) :
    (RecSvc.get_recommendations prefs catalog).2 = prefs.length ∧
    (RecSvc.get_recommendations prefs catalog).1
      = .ok (RecSvc.dedupFirst (RecSvc.flattenedBooks prefs catalog)) ∧
    ((RecSvc.dedupFirst (RecSvc.flattenedBooks prefs catalog)).map
        (fun b => b.id)).Nodup ∧
    (∀ i, i ∈ (RecSvc.dedupFirst (RecSvc.flattenedBooks prefs catalog)).map
          (fun b => b.id)
        ↔ i ∈ (RecSvc.flattenedBooks prefs catalog).map (fun b => b.id)) ∧
    (RecSvc.get_recommendations ([] : List RecSvc.Preference) catalog).1
      = .error ⟨404, "No preferences found for user"⟩ := by
  have hne : prefs.isEmpty = false := by
    cases prefs with
    | nil => exact absurd rfl h
    | cons a l => rfl
  refine ⟨?_, ?_, dedupFirst_id_nodup _, fun i => dedupFirst_id_mem _ i, ?_⟩
  · simp only [RecSvc.get_recommendations, hne, Bool.false_eq_true,
      if_false]
    rw [recLoop_calls prefs catalog [] 0, Nat.zero_add]
  · simp only [RecSvc.get_recommendations, hne, Bool.false_eq_true,
      if_false]
    rw [recLoop_recs prefs catalog [] 0, addBooks_eq_dedupFirst]
    simp
  · simp [RecSvc.get_recommendations]

/-- C9 amended witness: two distinct stored genres with overlapping catalog
answers. -/
theorem fanout_behavior_witness :
    ([⟨1, 1, "Fiction"⟩, ⟨2, 1, "Sci-Fi"⟩] : List RecSvc.Preference) ≠ [] ∧
    ((RecSvc.get_recommendations [⟨1, 1, "Fiction"⟩, ⟨2, 1, "Sci-Fi"⟩]
        (fun g => if g = "Fiction" then [⟨7, "Dune", none, none, none, none⟩]
          else [⟨7, "Dune", none, none, none, none⟩,
            ⟨3, "Foundation", none, none, none, none⟩])).2
        = ([⟨1, 1, "Fiction"⟩, ⟨2, 1, "Sci-Fi"⟩] :
            List RecSvc.Preference).length ∧
      (RecSvc.get_recommendations [⟨1, 1, "Fiction"⟩, ⟨2, 1, "Sci-Fi"⟩]
        (fun g => if g = "Fiction" then [⟨7, "Dune", none, none, none, none⟩]
          else [⟨7, "Dune", none, none, none, none⟩,
            ⟨3, "Foundation", none, none, none, none⟩])).1
        = .ok (RecSvc.dedupFirst
            (RecSvc.flattenedBooks [⟨1, 1, "Fiction"⟩, ⟨2, 1, "Sci-Fi"⟩]
              (fun g => if g = "Fiction" then
                  [⟨7, "Dune", none, none, none, none⟩]
                else [⟨7, "Dune", none, none, none, none⟩,
                  ⟨3, "Foundation", none, none, none, none⟩]))) ∧
      ((RecSvc.dedupFirst
          (RecSvc.flattenedBooks [⟨1, 1, "Fiction"⟩, ⟨2, 1, "Sci-Fi"⟩]
            (fun g => if g = "Fiction" then
                [⟨7, "Dune", none, none, none, none⟩]
              else [⟨7, "Dune", none, none, none, none⟩,
                ⟨3, "Foundation", none, none, none, none⟩]))).map
          (fun b => b.id)).Nodup ∧
      (∀ i, i ∈ (RecSvc.dedupFirst
            (RecSvc.flattenedBooks [⟨1, 1, "Fiction"⟩, ⟨2, 1, "Sci-Fi"⟩]
              (fun g => if g = "Fiction" then
                  [⟨7, "Dune", none, none, none, none⟩]
                else [⟨7, "Dune", none, none, none, none⟩,
                  ⟨3, "Foundation", none, none, none, none⟩]))).map
            (fun b => b.id)
          ↔ i ∈ (RecSvc.flattenedBooks [⟨1, 1, "Fiction"⟩, ⟨2, 1, "Sci-Fi"⟩]
              (fun g => if g = "Fiction" then
                  [⟨7, "Dune", none, none, none, none⟩]
                else [⟨7, "Dune", none, none, none, none⟩,
                  ⟨3, "Foundation", none, none, none, none⟩])).map
              (fun b => b.id)) ∧
      (RecSvc.get_recommendations ([] : List RecSvc.Preference)
        (fun g => if g = "Fiction" then [⟨7, "Dune", none, none, none, none⟩]
          else [⟨7, "Dune", none, none, none, none⟩,
            ⟨3, "Foundation", none, none, none, none⟩])).1
        = .error ⟨404, "No preferences found for user"⟩) :=
  ⟨by decide, fanout_behavior _ _ (by decide)⟩
